import Mathlib

/-!
Verification development for the sprout-track CLI core: the generic output
formatter (src/output/index.ts, table.ts, plain.ts, json.ts) and the
session-lifecycle convention of the sleep and pump command families
(src/commands/sleep.ts, src/commands/pump.ts).

Modelling conventions:
* JavaScript runtime values flowing through the formatter are embedded as the
  inductive `Value` below (strings, numbers, booleans, null, arrays, objects).
  Numbers are modelled as integers; the claims under study never depend on
  fractional number printing.  An `undefined` result of a lookup is modelled
  as `Option.none`, a present value `v` as `Option.some v`.
* Timestamps are modelled by their millisecond epoch value (`Int` for sleep,
  `Rat` for pump where fractional-minute arithmetic occurs); `new
  Date().toISOString()` / `new Date(s).getTime()` are the two directions of
  that identification.
* Each CLI action of the lifecycle layer is embedded as a pure function from
  the list of records the remote store returns (plus the wall-clock time and
  the parsed command-line options) to an outcome, together with the trace of
  store calls the action issues.  Amount options are embedded as the result
  of `optionalNumber` (`none` = option absent or unparsable).
-/

namespace SproutTrack

/-- JS-like runtime value (JSON-representable fragment).  Numbers are
modelled as integers; objects as association lists in insertion order. -/
inductive Value where
  | str : String → Value
  | num : Int → Value
  | bool : Bool → Value
  | null : Value
  | arr : List Value → Value
  | obj : List (String × Value) → Value
deriving Repr

/-- A domain record: one `Record<string, unknown>` object, as an association
list from field name to value, in insertion order. -/
abbrev RecordV := List (String × Value)

mutual

/-- JS `String(elem)` conversion as used by `Array.prototype.join`: null and
undefined elements become the empty string, nested arrays are joined by a
comma, objects print as "[object Object]". -/
def jsJoinElem : Value → String
  | .null => ""
  | .str s => s
  | .num n => toString n
  | .bool b => if b then "true" else "false"
  | .arr xs => String.intercalate "," (jsJoinElems xs)
  | .obj _ => "[object Object]"

/-- Elementwise `String(elem)` conversion over an array. -/
def jsJoinElems : List Value → List String
  | [] => []
  | v :: vs => jsJoinElem v :: jsJoinElems vs

end

/-- Escape one character for a JSON string literal (JSON.stringify rules for
the characters that can occur in this development). -/
def jsonEscapeChar (c : Char) : String :=
  if c = '"' then "\\\""
  else if c = '\\' then "\\\\"
  else if c = '\n' then "\\n"
  else if c = '\t' then "\\t"
  else if c = '\r' then "\\r"
  else String.singleton c

/-- A JSON string literal: quotes around the escaped characters. -/
def jsonQuote (s : String) : String :=
  "\"" ++ String.join (s.data.map jsonEscapeChar) ++ "\""

/-- Indentation used by `JSON.stringify(data, null, 2)`: two spaces per
nesting level. -/
def indentStr (n : Nat) : String :=
  String.join (List.replicate n "  ")

mutual

/-- `JSON.stringify(v, null, 2)` at nesting level `lvl`: pretty JSON with
2-space indentation, as produced by `formatJson` (src/output/json.ts). -/
def stringifyPretty (lvl : Nat) : Value → String
  | .null => "null"
  | .bool b => if b then "true" else "false"
  | .num n => toString n
  | .str s => jsonQuote s
  | .arr [] => "[]"
  | .arr (x :: xs) =>
      "[\n" ++ String.intercalate ",\n" (stringifyItems (lvl + 1) (x :: xs)) ++
        "\n" ++ indentStr lvl ++ "]"
  | .obj [] => "\x7b\x7d"
  | .obj (f :: fs) =>
      "\x7b\n" ++ String.intercalate ",\n" (stringifyEntries (lvl + 1) (f :: fs)) ++
        "\n" ++ indentStr lvl ++ "\x7d"

/-- Array items of pretty JSON, each on its own indented line. -/
def stringifyItems (lvl : Nat) : List Value → List String
  | [] => []
  | v :: vs => (indentStr lvl ++ stringifyPretty lvl v) :: stringifyItems lvl vs

/-- Object entries of pretty JSON, each on its own indented line. -/
def stringifyEntries (lvl : Nat) : List (String × Value) → List String
  | [] => []
  | (k, v) :: fs =>
      (indentStr lvl ++ jsonQuote k ++ ": " ++ stringifyPretty lvl v) ::
        stringifyEntries lvl fs

end

mutual

/-- `JSON.stringify(v)` (compact, single line), used by the default value
formatters on nested objects. -/
def stringifyCompact : Value → String
  | .null => "null"
  | .bool b => if b then "true" else "false"
  | .num n => toString n
  | .str s => jsonQuote s
  | .arr xs => "[" ++ String.intercalate "," (compactItems xs) ++ "]"
  | .obj fs => "\x7b" ++ String.intercalate "," (compactEntries fs) ++ "\x7d"

/-- Array items of compact JSON. -/
def compactItems : List Value → List String
  | [] => []
  | v :: vs => stringifyCompact v :: compactItems vs

/-- Object entries of compact JSON. -/
def compactEntries : List (String × Value) → List String
  | [] => []
  | (k, v) :: fs => (jsonQuote k ++ ":" ++ stringifyCompact v) :: compactEntries fs

end

/-- `formatJson` (src/output/json.ts): `JSON.stringify(data, null, 2)`. -/
def formatJson (v : Value) : String := stringifyPretty 0 v

/-- JS property access `v[k]` on a non-null value, restricted to own data
properties: object field lookup, array element by canonical numeric index,
the `length` property of arrays and strings, and single-character string
indexing.  Prototype-inherited members (methods) are not modelled: descriptor
keys address data fields. -/
def getProp : Value → String → Option Value
  | .obj fs, k => fs.lookup k
  | .arr xs, k =>
      if k = "length" then some (.num xs.length)
      else
        match k.toNat? with
        | some i => if toString i = k then xs.get? i else none
        | none => none
  | .str s, k =>
      if k = "length" then some (.num s.length)
      else
        match k.toNat? with
        | some i =>
            if toString i = k then (s.data.get? i).map (fun c => .str (String.singleton c))
            else none
        | none => none
  | .num _, _ => none
  | .bool _, _ => none
  | .null, _ => none

/-- The `reduce` step of `getNestedValue`: walk the remaining path segments,
short-circuiting to `undefined` (`none`) as soon as the current value is
null or undefined. -/
def resolveKeys : Option Value → List String → Option Value
  | cur, [] => cur
  | none, _ :: _ => none
  | some .null, _ :: _ => none
  | some (.str s), k :: ks => resolveKeys (getProp (.str s) k) ks
  | some (.num n), k :: ks => resolveKeys (getProp (.num n) k) ks
  | some (.bool b), k :: ks => resolveKeys (getProp (.bool b) k) ks
  | some (.arr xs), k :: ks => resolveKeys (getProp (.arr xs) k) ks
  | some (.obj fs), k :: ks => resolveKeys (getProp (.obj fs) k) ks

/-- `path.split('.')` — split on every dot, keeping empty segments (so
`"a.b"` gives `["a", "b"]`, `""` gives `[""]`, `"a..b"` gives
`["a", "", "b"]`), implemented by structural recursion on the characters. -/
def splitPathAux : List Char → List Char → List String
  | [], acc => [String.mk acc.reverse]
  | c :: cs, acc =>
      if c = '.' then String.mk acc.reverse :: splitPathAux cs []
      else splitPathAux cs (c :: acc)

/-- `path.split('.')` on a string. -/
def splitPath (s : String) : List String := splitPathAux s.data []

/-- `getNestedValue(obj, path)` — defined (byte-identically) in both
src/output/table.ts and src/output/plain.ts: split the path on dots and
reduce, short-circuiting to undefined when a segment hits null/undefined. -/
def getNestedValue (r : RecordV) (path : String) : Option Value :=
  resolveKeys (some (.obj r)) (splitPath path)

namespace Table

/-- `formatValue` (src/output/table.ts): default cell formatter for table
output.  The argument is the possibly-undefined result of `getNestedValue`. -/
def formatValue : Option Value → String
  | none => "-"
  | some .null => "-"
  | some (.bool b) => if b then "Yes" else "No"
  | some (.arr xs) => String.intercalate ", " (jsJoinElems xs)
  | some (.obj fs) => stringifyCompact (.obj fs)
  | some (.str s) => s
  | some (.num n) => toString n

/-- Column alignment of a table column descriptor. -/
inductive Align where
  | left | center | right
deriving Repr, DecidableEq

/-- `TableColumn` (src/output/table.ts): column descriptor.  `width` and
`align` only drive cli-table3 box layout. -/
structure TableColumn where
  key : String
  header : String
  width : Option Nat := none
  align : Option Align := none
  formatter : Option (Option Value → String) := none

/-- One body cell of the table: the descriptor's formatter when present,
otherwise the default `formatValue`, applied to the dotted-path lookup. -/
def cell (item : RecordV) (col : TableColumn) : String :=
  match col.formatter with
  | some f => f (getNestedValue item col.key)
  | none => formatValue (getNestedValue item col.key)

/-- `formatTable` (src/output/table.ts): an empty list renders the fixed
sentinel; otherwise cli-table3 draws a bordered grid of the header row and
one row of cells per record.  The box drawing (borders, widths, alignment,
colours) is external presentation; the grid is modelled as the computed cell
matrix serialized row-per-line with tab-separated cells. -/
def formatTable (data : List RecordV) (columns : List TableColumn) : String :=
  match data with
  | [] => "No data found."
  | _ =>
      let header := String.intercalate "\t" (columns.map (fun c => c.header))
      let rows := data.map (fun item =>
        String.intercalate "\t" (columns.map (fun c => cell item c)))
      String.intercalate "\n" (header :: rows)

/-- Field descriptor for single-record display: `{key, label, formatter?}`. -/
structure FieldDesc where
  key : String
  label : String
  formatter : Option (Option Value → String) := none

/-- JS `String.prototype.padEnd` with spaces. -/
def jsPadEnd (s : String) (n : Nat) : String :=
  s ++ String.mk (List.replicate (n - s.length) ' ')

/-- `formatKeyValue` (src/output/table.ts): aligned `label: value` lines for
a single record, labels padded to the longest label plus two. -/
def formatKeyValue (data : RecordV) (fields : List FieldDesc) : String :=
  let maxLabelLength := (fields.map (fun f => f.label.length)).foldr max 0
  let lines := fields.map (fun field =>
    let value := getNestedValue data field.key
    let formattedValue :=
      match field.formatter with
      | some f => f value
      | none => formatValue value
    jsPadEnd field.label (maxLabelLength + 2) ++ ": " ++ formattedValue)
  String.intercalate "\n" lines

end Table

namespace Plain

/-- `formatValue` (src/output/plain.ts): default value formatter for plain
(line) output.  The argument is the possibly-undefined result of
`getNestedValue`. -/
def formatValue : Option Value → String
  | none => ""
  | some .null => ""
  | some (.bool b) => if b then "yes" else "no"
  | some (.arr xs) => String.intercalate "," (jsJoinElems xs)
  | some (.obj fs) => stringifyCompact (.obj fs)
  | some (.str s) => s
  | some (.num n) => toString n

/-- `formatPlain` (src/output/plain.ts): an empty list renders the fixed
sentinel; otherwise one line per record, field values joined by the
separator (default: a single tab), each through the default formatter. -/
def formatPlain (data : List RecordV) (fields : List String)
    (separator : String := "\t") : String :=
  match data with
  | [] => "No data found."
  | _ =>
      let lines := data.map (fun item =>
        String.intercalate separator
          (fields.map (fun field => formatValue (getNestedValue item field))))
      String.intercalate "\n" lines

/-- `formatPlainSingle` (src/output/plain.ts): one `label: value` line per
(key, label) pair, values through the default formatter. -/
def formatPlainSingle (data : RecordV) (fields : List (String × String)) : String :=
  String.intercalate "\n"
    (fields.map (fun field =>
      field.2 ++ ": " ++ formatValue (getNestedValue data field.1)))

end Plain

/-- `OutputFormat` (src/types): the three render modes. -/
inductive OutputFormat where
  | json | table | plain
deriving Repr, DecidableEq

/-- The data argument of `output`: a single record or an ordered list of
records (`T | T[]`, discriminated by `Array.isArray`). -/
inductive OutData where
  | one : RecordV → OutData
  | many : List RecordV → OutData

/-- The JSON value a `T | T[]` datum denotes. -/
def OutData.value : OutData → Value
  | .one r => .obj r
  | .many rs => .arr (rs.map .obj)

/-- The options object of `output` (src/output/index.ts). -/
structure OutputOptions where
  format : Option OutputFormat := none
  columns : Option (List Table.TableColumn) := none
  fields : Option (List Table.FieldDesc) := none
  plainFields : Option (List String) := none

/-- `output` (src/output/index.ts): resolve the format (explicit option,
else the persisted default from `getOutputFormat()`), then dispatch to the
mode-specific formatter, falling back to `formatJson` when the mode's
descriptors are missing.  Returns the single block of text printed. -/
def output (defaultFormat : OutputFormat) (data : OutData)
    (options : OutputOptions) : String :=
  let format := options.format.getD defaultFormat
  match format with
  | .json => formatJson data.value
  | .table =>
      match data with
      | .many rs =>
          match options.columns with
          | some cols => Table.formatTable rs cols
          | none => formatJson data.value
      | .one r =>
          match options.fields with
          | some fs => Table.formatKeyValue r fs
          | none => formatJson data.value
  | .plain =>
      match data with
      | .many rs =>
          match options.plainFields with
          | some pfs => Plain.formatPlain rs pfs
          | none =>
              match options.columns with
              | some cols => Plain.formatPlain rs (cols.map (fun c => c.key))
              | none => formatJson data.value
      | .one r =>
          match options.fields with
          | some fs =>
              Plain.formatPlainSingle r (fs.map (fun f => (f.key, f.label)))
          | none => formatJson data.value

/-! ## Session lifecycle convention (sleep and pump commands) -/

/-- Outcome of a `start` action: refused because an open session already
exists (its id is reported in the error message, and the process exits 1),
or a create call issued with the given payload. -/
inductive StartOutcome (P : Type) where
  | refused (existingId : String)
  | created (p : P)
deriving Repr, DecidableEq

/-- Exit code of a `start` action (`process.exit(1)` on refusal). -/
def startExitCode {P : Type} : StartOutcome P → Nat
  | .refused _ => 1
  | .created _ => 0

/-- Outcome of an `end` action: refused because no open session exists
(the process exits 1), or an update call issued against the given record
id with the given payload. -/
inductive EndOutcome (P : Type) where
  | noOngoing
  | updated (id : String) (p : P)
deriving Repr, DecidableEq

/-- Exit code of an `end` action (`process.exit(1)` when no open session). -/
def endExitCode {P : Type} : EndOutcome P → Nat
  | .noOngoing => 1
  | .updated _ _ => 0

/-- `Math.round(d / 60000)` for an integer millisecond difference `d`:
`floor(d / 60000 + 1/2)`, the rounded minute count (used by sleep `end`). -/
def roundMinutes (d : Int) : Int := (d + 30000) / 60000

/-- JS `x || dflt` applied to the result of `optionalNumber`: the default is
taken when the option is absent or unparsable (`undefined`) and also when it
parses to the falsy number 0. -/
def jsOrDefault (x : Option Rat) (dflt : Rat) : Rat :=
  match x with
  | none => dflt
  | some v => if v = 0 then dflt else v

namespace Sleep

/-- One sleep log record as returned by the store, restricted to the fields
the lifecycle logic reads or writes.  Timestamps are millisecond epoch
integers; a null endTime is `none`. -/
structure SleepRecord where
  id : String
  startTime : Int
  endTime : Option Int := none
  type : String := "NAP"
  location : Option String := none
  quality : Option String := none
deriving Repr, DecidableEq

/-- JS test `!log.endTime` of the `find` callbacks: the record is an
ongoing (open) session. -/
def isOngoing (l : SleepRecord) : Bool := l.endTime.isNone

/-- Number of open records in a store listing. -/
def countOpen (logs : List SleepRecord) : Nat := (logs.filter isOngoing).length

/-- `SleepLogCreate` payload as built by sleep `start` (src/commands/
sleep.ts): the `endTime` key is never set by `start`, hence `none`. -/
structure SleepLogCreate where
  babyId : String
  startTime : Int
  type : String
  location : Option String := none
  endTime : Option Int := none
deriving Repr, DecidableEq

/-- Update payload built by sleep `end`: the new end marker and the
optional quality. -/
structure SleepEndPayload where
  endTime : Int
  quality : Option String := none
deriving Repr, DecidableEq

/-- A store (REST) call issued by a sleep lifecycle action. -/
inductive SleepCall where
  | list (babyId : String)
  | create (p : SleepLogCreate)
  | update (id : String) (p : SleepEndPayload)
deriving Repr, DecidableEq

/-- The sleep `start` action (src/commands/sleep.ts, `sleep start`): list
the baby's sleep logs, refuse if any is ongoing (reporting its id),
otherwise create an open record starting now. -/
def sleepStart (babyId : String) (existingLogs : List SleepRecord)
    (tNow : Int) (type : String) (location : Option String) :
    StartOutcome SleepLogCreate :=
  match existingLogs.find? isOngoing with
  | some ongoingSleep => .refused ongoingSleep.id
  | none =>
      .created { babyId := babyId, startTime := tNow, type := type,
                 location := location }

/-- Store calls issued by sleep `start`: the open-session query, then the
create call only when not refused. -/
def sleepStartCalls (babyId : String) (existingLogs : List SleepRecord)
    (tNow : Int) (type : String) (location : Option String) : List SleepCall :=
  SleepCall.list babyId ::
    (match sleepStart babyId existingLogs tNow type location with
     | .refused _ => []
     | .created p => [SleepCall.create p])

/-- The record the store holds after a create call (the server assigns the
fresh id and stores the payload fields). -/
def recordOfCreate (newId : String) (p : SleepLogCreate) : SleepRecord :=
  { id := newId, startTime := p.startTime, endTime := p.endTime,
    type := p.type, location := p.location }

/-- Store state after the sleep `start` action: unchanged on refusal, the
created record appended otherwise. -/
def sleepStartPost (babyId : String) (existingLogs : List SleepRecord)
    (tNow : Int) (type : String) (location : Option String)
    (newId : String) : List SleepRecord :=
  match sleepStart babyId existingLogs tNow type location with
  | .refused _ => existingLogs
  | .created p => existingLogs ++ [recordOfCreate newId p]

/-- The sleep `end` action (src/commands/sleep.ts, `sleep end`): list the
baby's sleep logs, refuse (exit 1) when none is ongoing, otherwise update
the first ongoing record (in store-return order) with the end marker. -/
def sleepEnd (existingLogs : List SleepRecord) (tNow : Int)
    (quality : Option String) : EndOutcome SleepEndPayload :=
  match existingLogs.find? isOngoing with
  | none => .noOngoing
  | some ongoingSleep =>
      .updated ongoingSleep.id { endTime := tNow, quality := quality }

/-- The duration sleep `end` derives for display:
`Math.round((endTime.getTime() - startTime.getTime()) / 60000)` on the
chosen ongoing record, when one exists. -/
def sleepEndDuration (existingLogs : List SleepRecord) (tNow : Int) :
    Option Int :=
  (existingLogs.find? isOngoing).map (fun l => roundMinutes (tNow - l.startTime))

/-- Store calls issued by sleep `end`: the open-session query, then the
update call only when an ongoing record was found. -/
def sleepEndCalls (babyId : String) (existingLogs : List SleepRecord)
    (tNow : Int) (quality : Option String) : List SleepCall :=
  SleepCall.list babyId ::
    (match sleepEnd existingLogs tNow quality with
     | .noOngoing => []
     | .updated id p => [SleepCall.update id p])

/-- Server-side effect of a sleep update call: every record with the given
id receives the supplied fields (endTime always, quality when present);
all other records are untouched. -/
def applyUpdate (logs : List SleepRecord) (id : String)
    (p : SleepEndPayload) : List SleepRecord :=
  logs.map (fun l =>
    if l.id = id then
      { l with endTime := some p.endTime,
               quality := match p.quality with
                          | some q => some q
                          | none => l.quality }
    else l)

/-- Store state after the sleep `end` action. -/
def sleepEndPost (existingLogs : List SleepRecord) (tNow : Int)
    (quality : Option String) : List SleepRecord :=
  match sleepEnd existingLogs tNow quality with
  | .noOngoing => existingLogs
  | .updated id p => applyUpdate existingLogs id p

end Sleep

namespace Pump

/-- One pump log record as returned by the store, restricted to the fields
the lifecycle logic reads or writes.  Timestamps are millisecond epoch
values (rational, because `log` back-computes a possibly fractional-minute
offset); a null endTime is `none`. -/
structure PumpRecord where
  id : String
  startTime : Rat
  endTime : Option Rat := none
  leftAmount : Option Rat := none
  rightAmount : Option Rat := none
  totalAmount : Option Rat := none
  unitAbbr : Option String := none
  notes : Option String := none
deriving Repr, DecidableEq

/-- JS test `!log.endTime` of the `find` callbacks: the record is an
ongoing (open) session. -/
def isOngoing (l : PumpRecord) : Bool := l.endTime.isNone

/-- Number of open records in a store listing. -/
def countOpen (logs : List PumpRecord) : Nat := (logs.filter isOngoing).length

/-- `PumpLogCreate` payload (src/commands/pump.ts): built by `start` (only
babyId, startTime, notes) and by `log` (all fields, already closed). -/
structure PumpLogCreate where
  babyId : String
  startTime : Rat
  endTime : Option Rat := none
  leftAmount : Option Rat := none
  rightAmount : Option Rat := none
  totalAmount : Option Rat := none
  unitAbbr : Option String := none
  notes : Option String := none
deriving Repr, DecidableEq

/-- Update payload built by pump `end`: end marker, both amounts, their
total, and the optional unit and notes. -/
structure PumpEndPayload where
  endTime : Rat
  leftAmount : Rat
  rightAmount : Rat
  totalAmount : Rat
  unitAbbr : Option String := none
  notes : Option String := none
deriving Repr, DecidableEq

/-- Update payload built by the generic pump `update` command: every field
optional, `totalAmount` recomputed only when an amount was supplied. -/
structure PumpUpdatePayload where
  startTime : Option String := none
  endTime : Option String := none
  leftAmount : Option Rat := none
  rightAmount : Option Rat := none
  totalAmount : Option Rat := none
  unitAbbr : Option String := none
  notes : Option String := none
deriving Repr, DecidableEq

/-- A store (REST) call issued by a pump action. -/
inductive PumpCall where
  | list (babyId : String)
  | create (p : PumpLogCreate)
  | update (id : String) (p : PumpEndPayload)
  | updateGeneric (id : String) (p : PumpUpdatePayload)
deriving Repr, DecidableEq

/-- The pump `start` action (src/commands/pump.ts, `pump start`): list the
baby's pump logs, refuse if any is ongoing (reporting its id), otherwise
create an open record starting now. -/
def pumpStart (babyId : String) (existingLogs : List PumpRecord)
    (tNow : Rat) (notes : Option String) : StartOutcome PumpLogCreate :=
  match existingLogs.find? isOngoing with
  | some ongoingPump => .refused ongoingPump.id
  | none => .created { babyId := babyId, startTime := tNow, notes := notes }

/-- Store calls issued by pump `start`. -/
def pumpStartCalls (babyId : String) (existingLogs : List PumpRecord)
    (tNow : Rat) (notes : Option String) : List PumpCall :=
  PumpCall.list babyId ::
    (match pumpStart babyId existingLogs tNow notes with
     | .refused _ => []
     | .created p => [PumpCall.create p])

/-- The record the store holds after a create call. -/
def recordOfCreate (newId : String) (p : PumpLogCreate) : PumpRecord :=
  { id := newId, startTime := p.startTime, endTime := p.endTime,
    leftAmount := p.leftAmount, rightAmount := p.rightAmount,
    totalAmount := p.totalAmount, unitAbbr := p.unitAbbr, notes := p.notes }

/-- Store state after the pump `start` action. -/
def pumpStartPost (babyId : String) (existingLogs : List PumpRecord)
    (tNow : Rat) (notes : Option String) (newId : String) : List PumpRecord :=
  match pumpStart babyId existingLogs tNow notes with
  | .refused _ => existingLogs
  | .created p => existingLogs ++ [recordOfCreate newId p]

/-- The pump `end` action (src/commands/pump.ts, `pump end`): list the
baby's pump logs, refuse (exit 1) when none is ongoing, otherwise update
the first ongoing record with the end marker, both amounts (absent or
unparsable amounts default to 0 through `optionalNumber(...) || 0`) and
their sum as `totalAmount`.  `left`/`right` are the `optionalNumber`
results of the two required options. -/
def pumpEnd (existingLogs : List PumpRecord) (tNow : Rat)
    (left right : Option Rat) (unit notes : Option String) :
    EndOutcome PumpEndPayload :=
  match existingLogs.find? isOngoing with
  | none => .noOngoing
  | some ongoingPump =>
      let leftAmount := jsOrDefault left 0
      let rightAmount := jsOrDefault right 0
      .updated ongoingPump.id
        { endTime := tNow, leftAmount := leftAmount,
          rightAmount := rightAmount,
          totalAmount := leftAmount + rightAmount,
          unitAbbr := unit, notes := notes }

/-- Store calls issued by pump `end`. -/
def pumpEndCalls (babyId : String) (existingLogs : List PumpRecord)
    (tNow : Rat) (left right : Option Rat) (unit notes : Option String) :
    List PumpCall :=
  PumpCall.list babyId ::
    (match pumpEnd existingLogs tNow left right unit notes with
     | .noOngoing => []
     | .updated id p => [PumpCall.update id p])

/-- Server-side effect of a pump end update call: every record with the
given id receives the supplied fields; all other records are untouched. -/
def applyUpdate (logs : List PumpRecord) (id : String)
    (p : PumpEndPayload) : List PumpRecord :=
  logs.map (fun l =>
    if l.id = id then
      { l with endTime := some p.endTime,
               leftAmount := some p.leftAmount,
               rightAmount := some p.rightAmount,
               totalAmount := some p.totalAmount,
               unitAbbr := match p.unitAbbr with
                           | some u => some u
                           | none => l.unitAbbr,
               notes := match p.notes with
                        | some n => some n
                        | none => l.notes }
    else l)

/-- Store state after the pump `end` action. -/
def pumpEndPost (existingLogs : List PumpRecord) (tNow : Rat)
    (left right : Option Rat) (unit notes : Option String) :
    List PumpRecord :=
  match pumpEnd existingLogs tNow left right unit notes with
  | .noOngoing => existingLogs
  | .updated id p => applyUpdate existingLogs id p

/-- The pump `log` action (src/commands/pump.ts, `pump log`): directly
create an already-closed record; the end marker is now, the start marker is
back-computed as now minus the requested duration in minutes (defaulted to
15 through `optionalNumber(opts.duration) || 15`), and the total is the sum
of the two amounts.  It issues no open-session query. -/
def pumpLog (babyId : String) (tNow : Rat) (left right duration : Option Rat)
    (unit notes : Option String) : PumpLogCreate :=
  let leftAmount := jsOrDefault left 0
  let rightAmount := jsOrDefault right 0
  let durationMinutes := jsOrDefault duration 15
  { babyId := babyId,
    startTime := tNow - durationMinutes * 60000,
    endTime := some tNow,
    leftAmount := some leftAmount,
    rightAmount := some rightAmount,
    totalAmount := some (leftAmount + rightAmount),
    unitAbbr := some (unit.getD "OZ"),
    notes := notes }

/-- Store calls issued by pump `log`: exactly one create, no query. -/
def pumpLogCalls (babyId : String) (tNow : Rat)
    (left right duration : Option Rat) (unit notes : Option String) :
    List PumpCall :=
  [PumpCall.create (pumpLog babyId tNow left right duration unit notes)]

/-- The pump `update` action (src/commands/pump.ts, `pump update <id>`):
build the update payload from the supplied options only; when at least one
of the two amounts is supplied, recompute `totalAmount` as
`(leftAmount ?? 0) + (rightAmount ?? 0)` from the payload alone — the
stored record is never fetched.  `leftOpt`/`rightOpt` are the values the
payload keys receive (`none` when the option is absent, empty, or fails
`optionalNumber`). -/
def pumpUpdate (leftOpt rightOpt : Option Rat)
    (startOpt endOpt unitOpt notesOpt : Option String) : PumpUpdatePayload :=
  let base : PumpUpdatePayload :=
    { startTime := startOpt, endTime := endOpt,
      leftAmount := leftOpt, rightAmount := rightOpt,
      unitAbbr := unitOpt, notes := notesOpt }
  if leftOpt.isSome || rightOpt.isSome then
    { base with totalAmount := some (leftOpt.getD 0 + rightOpt.getD 0) }
  else base

/-- Store calls issued by pump `update`: exactly one update, no read. -/
def pumpUpdateCalls (id : String) (leftOpt rightOpt : Option Rat)
    (startOpt endOpt unitOpt notesOpt : Option String) : List PumpCall :=
  [PumpCall.updateGeneric id
    (pumpUpdate leftOpt rightOpt startOpt endOpt unitOpt notesOpt)]

end Pump

/-! ## Helper lemmas -/

/-- Resolution starting from `undefined` stays `undefined`. -/
theorem resolveKeys_none : ∀ ks : List String, resolveKeys none ks = none
  | [] => rfl
  | _ :: _ => rfl

/-- Resolution starting from `null` with at least one segment left is
`undefined`. -/
theorem resolveKeys_null : ∀ ks : List String, ks ≠ [] →
    resolveKeys (some Value.null) ks = none
  | [], h => absurd rfl h
  | _ :: _, _ => rfl

/-- Resolution of an empty segment list returns the current value. -/
theorem resolveKeys_nil : ∀ cur : Option Value, resolveKeys cur [] = cur
  | none => rfl
  | some (.str _) => rfl
  | some (.num _) => rfl
  | some (.bool _) => rfl
  | some .null => rfl
  | some (.arr _) => rfl
  | some (.obj _) => rfl

/-- Path resolution splits at any intermediate point. -/
theorem resolveKeys_append : ∀ (ks1 : List String) (cur : Option Value)
    (ks2 : List String),
    resolveKeys cur (ks1 ++ ks2) = resolveKeys (resolveKeys cur ks1) ks2 := by
  intro ks1
  induction ks1 with
  | nil => intro cur ks2; rw [List.nil_append, resolveKeys_nil]
  | cons k ks ih =>
      intro cur ks2
      match cur with
      | none => simp [resolveKeys, resolveKeys_none]
      | some Value.null => simp [resolveKeys, resolveKeys_none]
      | some (Value.str s) => simpa [resolveKeys] using ih (getProp (.str s) k) ks2
      | some (Value.num n) => simpa [resolveKeys] using ih (getProp (.num n) k) ks2
      | some (Value.bool b) => simpa [resolveKeys] using ih (getProp (.bool b) k) ks2
      | some (Value.arr xs) => simpa [resolveKeys] using ih (getProp (.arr xs) k) ks2
      | some (Value.obj fs) => simpa [resolveKeys] using ih (getProp (.obj fs) k) ks2

/-- A successful `find?` splits the list into a prefix of non-matches, the
found element, and a suffix. -/
theorem find?_eq_some_split {α : Type} (p : α → Bool) :
    ∀ (l : List α) (r : α), l.find? p = some r →
      ∃ pre post, l = pre ++ r :: post ∧ (∀ x ∈ pre, p x = false) ∧ p r = true := by
  intro l
  induction l with
  | nil => intro r h; simp [List.find?] at h
  | cons a l ih =>
      intro r h
      by_cases ha : p a = true
      · refine ⟨[], l, ?_, ?_, ?_⟩
        · have : a = r := by
            simp [List.find?, ha] at h
            exact h
          simp [this]
        · intro x hx; simp at hx
        · have : a = r := by
            simp [List.find?, ha] at h
            exact h
          exact this ▸ ha
      · have ha' : p a = false := by
          cases hpa : p a with
          | true => exact absurd hpa ha
          | false => rfl
        have h' : l.find? p = some r := by
          simpa [List.find?, ha'] using h
        obtain ⟨pre, post, heq, hpre, hr⟩ := ih r h'
        exact ⟨a :: pre, post, by simp [heq], by
          intro x hx
          rcases List.mem_cons.1 hx with rfl | hx
          · exact ha'
          · exact hpre x hx, hr⟩

/-- If some element matches, `find?` succeeds. -/
theorem find?_some_of_exists {α : Type} (p : α → Bool) :
    ∀ (l : List α), (∃ x ∈ l, p x = true) → ∃ r, l.find? p = some r := by
  intro l
  induction l with
  | nil => rintro ⟨x, hx, _⟩; exact absurd hx (List.not_mem_nil x)
  | cons a l ih =>
      rintro ⟨x, hx, hpx⟩
      by_cases ha : p a = true
      · exact ⟨a, by simp [List.find?, ha]⟩
      · have ha' : p a = false := by
          cases hpa : p a with
          | true => exact absurd hpa ha
          | false => rfl
        rcases List.mem_cons.1 hx with rfl | hx
        · exact absurd hpx ha
        · obtain ⟨r, hr⟩ := ih ⟨x, hx, hpx⟩
          exact ⟨r, by simp [List.find?, ha', hr]⟩

/-! ## Claims about the output formatter -/

/-- C4 (counterexample): in line (plain) mode on a one-record sequence with
the field-key list omitted but column descriptors supplied, `output` does
not fall back to structured mode — it reuses the columns' keys — so its
output differs from the structured rendering of the same data. -/
theorem claim_C4_counterexample :
    output OutputFormat.table (OutData.many [[("id", Value.num 1)]])
      { format := some OutputFormat.plain,
        columns := some [{ key := "id", header := "ID" }] } ≠
    formatJson (OutData.many [[("id", Value.num 1)]]).value := by
  decide

/-- C4 (amended): for any data and mode, `render` produces the structured
(JSON) output when the descriptor required by that mode is omitted —
columns for tabular sequences, fields for tabular or line single records —
and, for line-mode sequences, when both the field-key list and the column
descriptors are omitted (columns, when present, substitute for the
field-key list instead of falling back). -/
theorem claim_C4_fallback_amended (df : OutputFormat) (rs : List RecordV)
    (r : RecordV) (opts : OutputOptions) :
    (opts.format.getD df = OutputFormat.table → opts.columns = none →
      output df (OutData.many rs) opts = formatJson (OutData.many rs).value)
    ∧ (opts.format.getD df = OutputFormat.table → opts.fields = none →
      output df (OutData.one r) opts = formatJson (OutData.one r).value)
    ∧ (opts.format.getD df = OutputFormat.plain → opts.plainFields = none →
      opts.columns = none →
      output df (OutData.many rs) opts = formatJson (OutData.many rs).value)
    ∧ (opts.format.getD df = OutputFormat.plain → opts.fields = none →
      output df (OutData.one r) opts = formatJson (OutData.one r).value) := by
  refine ⟨?_, ?_, ?_, ?_⟩
  · intro hf hc; simp [output, hf, hc]
  · intro hf hc; simp [output, hf, hc]
  · intro hf hp hc; simp [output, hf, hp, hc]
  · intro hf hc; simp [output, hf, hc]

/-- C4 witness: the amended fallback evaluated at concrete inputs. -/
theorem claim_C4_fallback_amended_witness :
    output OutputFormat.json (OutData.many [[("a", Value.num 1)]])
      { format := some OutputFormat.table } =
      formatJson (OutData.many [[("a", Value.num 1)]]).value
    ∧ output OutputFormat.json (OutData.one [("a", Value.num 1)])
      { format := some OutputFormat.plain } =
      formatJson (OutData.one [("a", Value.num 1)]).value :=
  ⟨(claim_C4_fallback_amended OutputFormat.json [[("a", Value.num 1)]]
      [("a", Value.num 1)] { format := some OutputFormat.table }).1 rfl rfl,
   (claim_C4_fallback_amended OutputFormat.json [[("a", Value.num 1)]]
      [("a", Value.num 1)] { format := some OutputFormat.plain }).2.2.2 rfl rfl⟩

/-- C5 (counterexample): an empty sequence in tabular mode with no column
descriptors falls back to structured mode and prints "[]", not the
"No data found." sentinel — so the sentinel is not produced regardless of
which descriptors are supplied. -/
theorem claim_C5_counterexample :
    output OutputFormat.table (OutData.many []) {} = "[]"
    ∧ output OutputFormat.table (OutData.many []) {} ≠ "No data found." := by
  refine ⟨?_, ?_⟩ <;> decide

/-- C5 (amended): an empty sequence renders the fixed "No data found."
sentinel in tabular mode whenever column descriptors are supplied, and in
line mode whenever a field-key list is supplied or, failing that, column
descriptors are; with no applicable descriptors the empty sequence falls
back to structured mode instead. -/
theorem claim_C5_empty_sentinel_amended (df : OutputFormat)
    (opts : OutputOptions) (cols : List Table.TableColumn)
    (pfs : List String) :
    (opts.format.getD df = OutputFormat.table → opts.columns = some cols →
      output df (OutData.many []) opts = "No data found.")
    ∧ (opts.format.getD df = OutputFormat.plain →
      opts.plainFields = some pfs →
      output df (OutData.many []) opts = "No data found.")
    ∧ (opts.format.getD df = OutputFormat.plain → opts.plainFields = none →
      opts.columns = some cols →
      output df (OutData.many []) opts = "No data found.") := by
  refine ⟨?_, ?_, ?_⟩
  · intro hf hc; simp [output, hf, hc, Table.formatTable]
  · intro hf hp; simp [output, hf, hp, Plain.formatPlain]
  · intro hf hp hc; simp [output, hf, hp, hc, Plain.formatPlain]

/-- C5 witness: the amended sentinel behaviour at concrete descriptors
(the columns of Scenario C). -/
theorem claim_C5_empty_sentinel_amended_witness :
    output OutputFormat.json (OutData.many [])
      { format := some OutputFormat.table,
        columns := some [{ key := "id", header := "id" },
                         { key := "name", header := "name" }] } =
      "No data found."
    ∧ output OutputFormat.json (OutData.many [])
      { format := some OutputFormat.plain, plainFields := some ["id"] } =
      "No data found." :=
  ⟨(claim_C5_empty_sentinel_amended OutputFormat.json
      { format := some OutputFormat.table,
        columns := some [{ key := "id", header := "id" },
                         { key := "name", header := "name" }] }
      [{ key := "id", header := "id" }, { key := "name", header := "name" }]
      ["id"]).1 rfl rfl,
   (claim_C5_empty_sentinel_amended OutputFormat.json
      { format := some OutputFormat.plain, plainFields := some ["id"] }
      [] ["id"]).2.1 rfl rfl⟩

/-- C6: the default value-formatter is mode-asymmetric — booleans render as
"Yes"/"No" in tabular mode and "yes"/"no" in line mode, arrays join their
elements with ", " in tabular mode and "," in line mode, and null/undefined
renders as "-" in tabular mode and as the empty string in line mode. -/
theorem claim_C6_default_formatter_asymmetry :
    Table.formatValue (some (Value.bool true)) = "Yes"
    ∧ Table.formatValue (some (Value.bool false)) = "No"
    ∧ Plain.formatValue (some (Value.bool true)) = "yes"
    ∧ Plain.formatValue (some (Value.bool false)) = "no"
    ∧ (∀ xs : List Value,
        Table.formatValue (some (Value.arr xs)) =
          String.intercalate ", " (jsJoinElems xs))
    ∧ (∀ xs : List Value,
        Plain.formatValue (some (Value.arr xs)) =
          String.intercalate "," (jsJoinElems xs))
    ∧ Table.formatValue (some Value.null) = "-"
    ∧ Table.formatValue none = "-"
    ∧ Plain.formatValue (some Value.null) = ""
    ∧ Plain.formatValue none = "" :=
  ⟨rfl, rfl, rfl, rfl, fun _ => rfl, fun _ => rfl, rfl, rfl, rfl, rfl⟩

/-- C7: dotted-path resolution is total by construction (it never raises);
whenever a proper prefix of the path resolves to undefined or null, the
whole path resolves to undefined, and an undefined or null resolution is
rendered as the mode-appropriate placeholder ("-" in tabular mode, the
empty string in line mode). -/
theorem claim_C7_dotted_path_safety (r : RecordV) (ks1 ks2 : List String)
    (path : String) :
    (ks2 ≠ [] →
      (resolveKeys (some (Value.obj r)) ks1 = none ∨
        resolveKeys (some (Value.obj r)) ks1 = some Value.null) →
      resolveKeys (some (Value.obj r)) (ks1 ++ ks2) = none)
    ∧ (getNestedValue r path = none →
        Table.formatValue (getNestedValue r path) = "-"
        ∧ Plain.formatValue (getNestedValue r path) = "")
    ∧ (getNestedValue r path = some Value.null →
        Table.formatValue (getNestedValue r path) = "-"
        ∧ Plain.formatValue (getNestedValue r path) = "") := by
  refine ⟨?_, ?_, ?_⟩
  · intro h2 h1
    rw [resolveKeys_append]
    rcases h1 with h | h
    · rw [h]; exact resolveKeys_none ks2
    · rw [h]; exact resolveKeys_null ks2 h2
  · intro h; rw [h]; exact ⟨rfl, rfl⟩
  · intro h; rw [h]; exact ⟨rfl, rfl⟩

/-- A list all of whose elements fail the predicate filters to nil. -/
theorem filter_nil_of_all_false {α : Type} (p : α → Bool) :
    ∀ l : List α, (∀ x ∈ l, p x = false) → l.filter p = [] := by
  intro l
  induction l with
  | nil => intro _; rfl
  | cons a l ih =>
      intro h
      rw [List.filter_cons]
      simp [h a (List.mem_cons_self a l)]
      exact fun x hx => h x (List.mem_cons_of_mem a hx)

/-- C7 witness: a record whose field `a` is null, addressed through the
deeper path `a.b`, resolves to undefined and renders as the placeholder. -/
theorem claim_C7_dotted_path_safety_witness :
    resolveKeys (some (Value.obj [("a", Value.null)])) (["a"] ++ ["b"]) = none
    ∧ Table.formatValue (getNestedValue [("a", Value.null)] "a.b") = "-"
    ∧ Plain.formatValue (getNestedValue [("a", Value.null)] "a.b") = "" :=
  ⟨(claim_C7_dotted_path_safety [("a", Value.null)] ["a"] ["b"] "a.b").1
      (List.cons_ne_nil _ _) (Or.inr rfl),
   ((claim_C7_dotted_path_safety [("a", Value.null)] ["a"] ["b"] "a.b").2.1 rfl).1,
   ((claim_C7_dotted_path_safety [("a", Value.null)] ["a"] ["b"] "a.b").2.1 rfl).2⟩

/-! ## Claims about the session lifecycle -/

/-- C1: for each session-tracked kind (sleep, pump), when the store listing
contains a record with an absent end marker, `start` refuses, reporting the
first such record's id, issues no create call and leaves the store
unchanged — in particular a single open record stays the single open
record; when no record is open, `start` issues exactly one create whose
start marker is the current time and whose end marker is absent, after
which exactly one record is open. -/
theorem claim_C1_start_guard (babyId type newId : String)
    (slogs : List Sleep.SleepRecord) (plogs : List Pump.PumpRecord)
    (t : Int) (tq : Rat) (loc notes : Option String) :
    ((∃ l ∈ slogs, Sleep.isOngoing l = true) →
      (∃ r, slogs.find? Sleep.isOngoing = some r ∧ Sleep.isOngoing r = true
        ∧ Sleep.sleepStart babyId slogs t type loc = .refused r.id)
      ∧ Sleep.sleepStartCalls babyId slogs t type loc =
          [Sleep.SleepCall.list babyId]
      ∧ Sleep.sleepStartPost babyId slogs t type loc newId = slogs
      ∧ (Sleep.countOpen slogs = 1 →
          Sleep.countOpen (Sleep.sleepStartPost babyId slogs t type loc newId) = 1))
    ∧ ((∀ l ∈ slogs, Sleep.isOngoing l = false) →
      Sleep.sleepStart babyId slogs t type loc =
        .created { babyId := babyId, startTime := t, type := type, location := loc }
      ∧ ({ babyId := babyId, startTime := t, type := type,
           location := loc } : Sleep.SleepLogCreate).endTime = none
      ∧ Sleep.sleepStartCalls babyId slogs t type loc =
          [Sleep.SleepCall.list babyId,
           Sleep.SleepCall.create
             { babyId := babyId, startTime := t, type := type, location := loc }]
      ∧ Sleep.countOpen (Sleep.sleepStartPost babyId slogs t type loc newId) = 1)
    ∧ ((∃ l ∈ plogs, Pump.isOngoing l = true) →
      (∃ r, plogs.find? Pump.isOngoing = some r ∧ Pump.isOngoing r = true
        ∧ Pump.pumpStart babyId plogs tq notes = .refused r.id)
      ∧ Pump.pumpStartCalls babyId plogs tq notes = [Pump.PumpCall.list babyId]
      ∧ Pump.pumpStartPost babyId plogs tq notes newId = plogs
      ∧ (Pump.countOpen plogs = 1 →
          Pump.countOpen (Pump.pumpStartPost babyId plogs tq notes newId) = 1))
    ∧ ((∀ l ∈ plogs, Pump.isOngoing l = false) →
      Pump.pumpStart babyId plogs tq notes =
        .created { babyId := babyId, startTime := tq, notes := notes }
      ∧ ({ babyId := babyId, startTime := tq,
           notes := notes } : Pump.PumpLogCreate).endTime = none
      ∧ Pump.pumpStartCalls babyId plogs tq notes =
          [Pump.PumpCall.list babyId,
           Pump.PumpCall.create { babyId := babyId, startTime := tq, notes := notes }]
      ∧ Pump.countOpen (Pump.pumpStartPost babyId plogs tq notes newId) = 1) := by
  refine ⟨?_, ?_, ?_, ?_⟩
  · intro h
    obtain ⟨r, hr⟩ := find?_some_of_exists Sleep.isOngoing slogs h
    have hro : Sleep.isOngoing r = true := List.find?_some hr
    refine ⟨⟨r, hr, hro, by simp [Sleep.sleepStart, hr]⟩,
      by simp [Sleep.sleepStartCalls, Sleep.sleepStart, hr],
      by simp [Sleep.sleepStartPost, Sleep.sleepStart, hr], ?_⟩
    intro h1
    simpa [Sleep.sleepStartPost, Sleep.sleepStart, hr] using h1
  · intro h
    have hnone : slogs.find? Sleep.isOngoing = none :=
      List.find?_eq_none.mpr (fun x hx => by simp [h x hx])
    have hfil : slogs.filter Sleep.isOngoing = [] :=
      filter_nil_of_all_false Sleep.isOngoing slogs h
    refine ⟨by simp [Sleep.sleepStart, hnone], rfl,
      by simp [Sleep.sleepStartCalls, Sleep.sleepStart, hnone], ?_⟩
    simp [Sleep.sleepStartPost, Sleep.sleepStart, hnone, Sleep.countOpen,
      List.filter_append, hfil, Sleep.recordOfCreate, Sleep.isOngoing]
  · intro h
    obtain ⟨r, hr⟩ := find?_some_of_exists Pump.isOngoing plogs h
    have hro : Pump.isOngoing r = true := List.find?_some hr
    refine ⟨⟨r, hr, hro, by simp [Pump.pumpStart, hr]⟩,
      by simp [Pump.pumpStartCalls, Pump.pumpStart, hr],
      by simp [Pump.pumpStartPost, Pump.pumpStart, hr], ?_⟩
    intro h1
    simpa [Pump.pumpStartPost, Pump.pumpStart, hr] using h1
  · intro h
    have hnone : plogs.find? Pump.isOngoing = none :=
      List.find?_eq_none.mpr (fun x hx => by simp [h x hx])
    have hfil : plogs.filter Pump.isOngoing = [] :=
      filter_nil_of_all_false Pump.isOngoing plogs h
    refine ⟨by simp [Pump.pumpStart, hnone], rfl,
      by simp [Pump.pumpStartCalls, Pump.pumpStart, hnone], ?_⟩
    simp [Pump.pumpStartPost, Pump.pumpStart, hnone, Pump.countOpen,
      List.filter_append, hfil, Pump.recordOfCreate, Pump.isOngoing]

/-- C1 witness: with one open record `start` leaves one open record
(refusing); with no record `start` leaves one open record (creating). -/
theorem claim_C1_start_guard_witness :
    Sleep.countOpen
      (Sleep.sleepStartPost "b" [{ id := "s1", startTime := 0 }] 100 "NAP" none "n1") = 1
    ∧ Sleep.countOpen (Sleep.sleepStartPost "b" [] 100 "NAP" none "n1") = 1
    ∧ Pump.countOpen
      (Pump.pumpStartPost "b" [{ id := "p1", startTime := 0 }] 100 none "n2") = 1
    ∧ Pump.countOpen (Pump.pumpStartPost "b" [] 100 none "n2") = 1 :=
  ⟨((claim_C1_start_guard "b" "NAP" "n1" [{ id := "s1", startTime := 0 }] []
      100 100 none none).1
      ⟨_, List.mem_cons_self _ _, rfl⟩).2.2.2 rfl,
   ((claim_C1_start_guard "b" "NAP" "n1" [] [] 100 100 none none).2.1
      (fun l hl => absurd hl (List.not_mem_nil l))).2.2.2,
   ((claim_C1_start_guard "b" "NAP" "n2" [] [{ id := "p1", startTime := 0 }]
      100 100 none none).2.2.1
      ⟨_, List.mem_cons_self _ _, rfl⟩).2.2.2 rfl,
   ((claim_C1_start_guard "b" "NAP" "n2" [] [] 100 100 none none).2.2.2
      (fun l hl => absurd hl (List.not_mem_nil l))).2.2.2⟩

/-- C2: for each session-tracked kind (sleep, pump), when the store listing
contains no record with an absent end marker, `end` refuses, exits
non-zero, issues no update call, and the store state is unchanged. -/
theorem claim_C2_end_requires_open (babyId : String)
    (slogs : List Sleep.SleepRecord) (plogs : List Pump.PumpRecord)
    (t : Int) (tq : Rat) (q : Option String) (lamt ramt : Option Rat)
    (unit notes : Option String) :
    ((∀ l ∈ slogs, Sleep.isOngoing l = false) →
      Sleep.sleepEnd slogs t q = EndOutcome.noOngoing
      ∧ endExitCode (Sleep.sleepEnd slogs t q) = 1
      ∧ Sleep.sleepEndCalls babyId slogs t q = [Sleep.SleepCall.list babyId]
      ∧ Sleep.sleepEndPost slogs t q = slogs)
    ∧ ((∀ l ∈ plogs, Pump.isOngoing l = false) →
      Pump.pumpEnd plogs tq lamt ramt unit notes = EndOutcome.noOngoing
      ∧ endExitCode (Pump.pumpEnd plogs tq lamt ramt unit notes) = 1
      ∧ Pump.pumpEndCalls babyId plogs tq lamt ramt unit notes =
          [Pump.PumpCall.list babyId]
      ∧ Pump.pumpEndPost plogs tq lamt ramt unit notes = plogs) := by
  constructor
  · intro h
    have hnone : slogs.find? Sleep.isOngoing = none :=
      List.find?_eq_none.mpr (fun x hx => by simp [h x hx])
    exact ⟨by simp [Sleep.sleepEnd, hnone],
      by simp [endExitCode, Sleep.sleepEnd, hnone],
      by simp [Sleep.sleepEndCalls, Sleep.sleepEnd, hnone],
      by simp [Sleep.sleepEndPost, Sleep.sleepEnd, hnone]⟩
  · intro h
    have hnone : plogs.find? Pump.isOngoing = none :=
      List.find?_eq_none.mpr (fun x hx => by simp [h x hx])
    exact ⟨by simp [Pump.pumpEnd, hnone],
      by simp [endExitCode, Pump.pumpEnd, hnone],
      by simp [Pump.pumpEndCalls, Pump.pumpEnd, hnone],
      by simp [Pump.pumpEndPost, Pump.pumpEnd, hnone]⟩

/-- C2 witness: ending with an empty store listing refuses with exit code 1
for both kinds. -/
theorem claim_C2_end_requires_open_witness :
    Sleep.sleepEnd [] 100 none = EndOutcome.noOngoing
    ∧ endExitCode (Sleep.sleepEnd [] 100 none) = 1
    ∧ Sleep.sleepEndCalls "b" [] 100 none = [Sleep.SleepCall.list "b"]
    ∧ Pump.pumpEnd [] 100 (some 4) (some 3) none none = EndOutcome.noOngoing
    ∧ endExitCode (Pump.pumpEnd [] 100 (some 4) (some 3) none none) = 1 :=
  ⟨((claim_C2_end_requires_open "b" [] [] 100 100 none (some 4) (some 3)
      none none).1 (fun l hl => absurd hl (List.not_mem_nil l))).1,
   ((claim_C2_end_requires_open "b" [] [] 100 100 none (some 4) (some 3)
      none none).1 (fun l hl => absurd hl (List.not_mem_nil l))).2.1,
   ((claim_C2_end_requires_open "b" [] [] 100 100 none (some 4) (some 3)
      none none).1 (fun l hl => absurd hl (List.not_mem_nil l))).2.2.1,
   ((claim_C2_end_requires_open "b" [] [] 100 100 none (some 4) (some 3)
      none none).2 (fun l hl => absurd hl (List.not_mem_nil l))).1,
   ((claim_C2_end_requires_open "b" [] [] 100 100 none (some 4) (some 3)
      none none).2 (fun l hl => absurd hl (List.not_mem_nil l))).2.1⟩

/-- C3: sleep `end` at wall-clock `t1` on a listing whose first open record
has start marker `r.startTime` updates that record with end marker `t1`
(every record with that id is closed at `t1` afterwards), and the derived
duration is `t1 - r.startTime` in minutes rounded to the nearest minute
(ties up): it is the integer `dur` with
`60000*dur - 30000 ≤ t1 - r.startTime < 60000*dur + 30000` up to the tie. -/
theorem claim_C3_duration_derivation (slogs : List Sleep.SleepRecord)
    (t1 : Int) (q : Option String) (r : Sleep.SleepRecord)
    (h : slogs.find? Sleep.isOngoing = some r) :
    Sleep.sleepEnd slogs t1 q =
      EndOutcome.updated r.id { endTime := t1, quality := q }
    ∧ Sleep.sleepEndDuration slogs t1 = some (roundMinutes (t1 - r.startTime))
    ∧ 60000 * roundMinutes (t1 - r.startTime) ≤ (t1 - r.startTime) + 30000
    ∧ (t1 - r.startTime) + 30000 <
        60000 * roundMinutes (t1 - r.startTime) + 60000
    ∧ (∀ l ∈ Sleep.sleepEndPost slogs t1 q, l.id = r.id →
        l.endTime = some t1) := by
  refine ⟨by simp [Sleep.sleepEnd, h],
    by simp [Sleep.sleepEndDuration, h], ?_, ?_, ?_⟩
  · unfold roundMinutes; omega
  · unfold roundMinutes; omega
  · intro l hl hid
    have hpost : Sleep.sleepEndPost slogs t1 q =
        Sleep.applyUpdate slogs r.id { endTime := t1, quality := q } := by
      simp [Sleep.sleepEndPost, Sleep.sleepEnd, h]
    rw [hpost] at hl
    rcases List.mem_map.1 hl with ⟨x, hx, rfl⟩
    by_cases hxid : x.id = r.id
    · simp [Sleep.applyUpdate, hxid]
    · simp [hxid] at hid

/-- C3 witness: ending at 14:30 a sleep opened at 13:00 (epoch
milliseconds) yields a 90-minute derived duration and closes the record at
14:30 (Scenario A of the specification). -/
theorem claim_C3_duration_derivation_witness :
    Sleep.sleepEnd [{ id := "s1", startTime := 46800000 }] 52200000
        (some "GOOD") =
      EndOutcome.updated "s1" { endTime := 52200000, quality := some "GOOD" }
    ∧ Sleep.sleepEndDuration [{ id := "s1", startTime := 46800000 }]
        52200000 = some (roundMinutes (52200000 - 46800000))
    ∧ roundMinutes (52200000 - 46800000) = 90 :=
  ⟨(claim_C3_duration_derivation [{ id := "s1", startTime := 46800000 }]
      52200000 (some "GOOD") { id := "s1", startTime := 46800000 } rfl).1,
   (claim_C3_duration_derivation [{ id := "s1", startTime := 46800000 }]
      52200000 (some "GOOD") { id := "s1", startTime := 46800000 } rfl).2.1,
   by decide⟩

/-- C9: for each session-tracked kind, when the store listing has more than
one record with an absent end marker, `end` selects the first such record
in store-return order (everything before it in the listing is closed),
issues exactly one update call against its id, and every record with a
different id is carried into the post state unchanged. -/
theorem claim_C9_first_open_selected (babyId : String)
    (slogs : List Sleep.SleepRecord) (plogs : List Pump.PumpRecord)
    (t : Int) (tq : Rat) (q : Option String) (lamt ramt : Option Rat)
    (unit notes : Option String) (r : Sleep.SleepRecord)
    (rp : Pump.PumpRecord) :
    (1 < Sleep.countOpen slogs → slogs.find? Sleep.isOngoing = some r →
      (∃ pre post, slogs = pre ++ r :: post
        ∧ (∀ x ∈ pre, Sleep.isOngoing x = false) ∧ Sleep.isOngoing r = true)
      ∧ Sleep.sleepEnd slogs t q =
          EndOutcome.updated r.id { endTime := t, quality := q }
      ∧ Sleep.sleepEndCalls babyId slogs t q =
          [Sleep.SleepCall.list babyId,
           Sleep.SleepCall.update r.id { endTime := t, quality := q }]
      ∧ (∀ l ∈ slogs, l.id ≠ r.id → l ∈ Sleep.sleepEndPost slogs t q))
    ∧ (1 < Pump.countOpen plogs → plogs.find? Pump.isOngoing = some rp →
      (∃ pre post, plogs = pre ++ rp :: post
        ∧ (∀ x ∈ pre, Pump.isOngoing x = false) ∧ Pump.isOngoing rp = true)
      ∧ Pump.pumpEnd plogs tq lamt ramt unit notes =
          EndOutcome.updated rp.id
            { endTime := tq, leftAmount := jsOrDefault lamt 0,
              rightAmount := jsOrDefault ramt 0,
              totalAmount := jsOrDefault lamt 0 + jsOrDefault ramt 0,
              unitAbbr := unit, notes := notes }
      ∧ Pump.pumpEndCalls babyId plogs tq lamt ramt unit notes =
          [Pump.PumpCall.list babyId,
           Pump.PumpCall.update rp.id
             { endTime := tq, leftAmount := jsOrDefault lamt 0,
               rightAmount := jsOrDefault ramt 0,
               totalAmount := jsOrDefault lamt 0 + jsOrDefault ramt 0,
               unitAbbr := unit, notes := notes }]
      ∧ (∀ l ∈ plogs, l.id ≠ rp.id →
          l ∈ Pump.pumpEndPost plogs tq lamt ramt unit notes)) := by
  constructor
  · intro _ h
    obtain ⟨pre, post, heq, hpre, hro⟩ :=
      find?_eq_some_split Sleep.isOngoing slogs r h
    refine ⟨⟨pre, post, heq, hpre, hro⟩,
      by simp [Sleep.sleepEnd, h],
      by simp [Sleep.sleepEndCalls, Sleep.sleepEnd, h], ?_⟩
    intro l hl hid
    have hpost : Sleep.sleepEndPost slogs t q =
        Sleep.applyUpdate slogs r.id { endTime := t, quality := q } := by
      simp [Sleep.sleepEndPost, Sleep.sleepEnd, h]
    rw [hpost]
    exact List.mem_map.2 ⟨l, hl, by simp [hid]⟩
  · intro _ h
    obtain ⟨pre, post, heq, hpre, hro⟩ :=
      find?_eq_some_split Pump.isOngoing plogs rp h
    refine ⟨⟨pre, post, heq, hpre, hro⟩,
      by simp [Pump.pumpEnd, h],
      by simp [Pump.pumpEndCalls, Pump.pumpEnd, h], ?_⟩
    intro l hl hid
    have hpost : Pump.pumpEndPost plogs tq lamt ramt unit notes =
        Pump.applyUpdate plogs rp.id
          { endTime := tq, leftAmount := jsOrDefault lamt 0,
            rightAmount := jsOrDefault ramt 0,
            totalAmount := jsOrDefault lamt 0 + jsOrDefault ramt 0,
            unitAbbr := unit, notes := notes } := by
      simp [Pump.pumpEndPost, Pump.pumpEnd, h]
    rw [hpost]
    exact List.mem_map.2 ⟨l, hl, by simp [hid]⟩

/-- C9 witness: with two open records each, `end` updates the first and the
second stays in the store unchanged, for both kinds. -/
theorem claim_C9_first_open_selected_witness :
    Sleep.sleepEnd
        [{ id := "s1", startTime := 0 }, { id := "s2", startTime := 10 }]
        100 none =
      EndOutcome.updated "s1" { endTime := 100, quality := none }
    ∧ ({ id := "s2", startTime := 10 } : Sleep.SleepRecord) ∈
        Sleep.sleepEndPost
          [{ id := "s1", startTime := 0 }, { id := "s2", startTime := 10 }]
          100 none
    ∧ Pump.pumpEnd
        [{ id := "p1", startTime := 0 }, { id := "p2", startTime := 10 }]
        100 none none none none =
      EndOutcome.updated "p1"
        { endTime := 100, leftAmount := jsOrDefault none 0,
          rightAmount := jsOrDefault none 0,
          totalAmount := jsOrDefault none 0 + jsOrDefault none 0 }
    ∧ ({ id := "p2", startTime := 10 } : Pump.PumpRecord) ∈
        Pump.pumpEndPost
          [{ id := "p1", startTime := 0 }, { id := "p2", startTime := 10 }]
          100 none none none none :=
  ⟨((claim_C9_first_open_selected "b"
      [{ id := "s1", startTime := 0 }, { id := "s2", startTime := 10 }]
      [{ id := "p1", startTime := 0 }, { id := "p2", startTime := 10 }]
      100 100 none none none none none
      { id := "s1", startTime := 0 } { id := "p1", startTime := 0 }).1
      (by decide) rfl).2.1,
   ((claim_C9_first_open_selected "b"
      [{ id := "s1", startTime := 0 }, { id := "s2", startTime := 10 }]
      [{ id := "p1", startTime := 0 }, { id := "p2", startTime := 10 }]
      100 100 none none none none none
      { id := "s1", startTime := 0 } { id := "p1", startTime := 0 }).1
      (by decide) rfl).2.2.2 _ (by simp) (by simp),
   ((claim_C9_first_open_selected "b"
      [{ id := "s1", startTime := 0 }, { id := "s2", startTime := 10 }]
      [{ id := "p1", startTime := 0 }, { id := "p2", startTime := 10 }]
      100 100 none none none none none
      { id := "s1", startTime := 0 } { id := "p1", startTime := 0 }).2
      (by decide) rfl).2.1,
   ((claim_C9_first_open_selected "b"
      [{ id := "s1", startTime := 0 }, { id := "s2", startTime := 10 }]
      [{ id := "p1", startTime := 0 }, { id := "p2", startTime := 10 }]
      100 100 none none none none none
      { id := "s1", startTime := 0 } { id := "p1", startTime := 0 }).2
      (by decide) rfl).2.2.2 _ (by simp) (by simp)⟩

/-- C8 (counterexample): pump `log` invoked with duration 0 at wall-clock 0
back-computes the start marker with the 15-minute default, not with the
supplied duration — `optionalNumber(opts.duration) || 15` treats the parsed
0 as falsy — so the created record's start marker is not `T - D` minutes. -/
theorem claim_C8_counterexample :
    (Pump.pumpLog "b" 0 (some 4) (some 3) (some 0) none none).startTime ≠
      0 - 0 * 60000 := by
  simp [Pump.pumpLog, jsOrDefault]

/-- C8 (amended): pump `log` with parseable left amount `L`, right amount
`R` and nonzero duration `D` minutes at wall-clock `t` creates a single
already-closed record with end marker `t`, start marker back-computed as
`t` minus `D` minutes, amounts `L` and `R` and total `L + R`, and issues no
open-session query (a zero, absent, or unparsable duration falls back to
the 15-minute default instead). -/
theorem claim_C8_pump_log_amended (babyId : String) (t L R D : Rat)
    (unit notes : Option String) (hD : D ≠ 0) :
    (Pump.pumpLog babyId t (some L) (some R) (some D) unit notes).startTime =
      t - D * 60000
    ∧ (Pump.pumpLog babyId t (some L) (some R) (some D) unit notes).endTime =
        some t
    ∧ (Pump.pumpLog babyId t (some L) (some R) (some D) unit notes).leftAmount =
        some L
    ∧ (Pump.pumpLog babyId t (some L) (some R) (some D) unit notes).rightAmount =
        some R
    ∧ (Pump.pumpLog babyId t (some L) (some R) (some D) unit notes).totalAmount =
        some (L + R)
    ∧ Pump.pumpLogCalls babyId t (some L) (some R) (some D) unit notes =
        [Pump.PumpCall.create
          (Pump.pumpLog babyId t (some L) (some R) (some D) unit notes)]
    ∧ (∀ b, Pump.PumpCall.list b ∉
        Pump.pumpLogCalls babyId t (some L) (some R) (some D) unit notes) := by
  have hL : jsOrDefault (some L) 0 = L := by
    by_cases h : L = 0 <;> simp [jsOrDefault, h]
  have hR : jsOrDefault (some R) 0 = R := by
    by_cases h : R = 0 <;> simp [jsOrDefault, h]
  have hDd : jsOrDefault (some D) 15 = D := by simp [jsOrDefault, hD]
  refine ⟨?_, rfl, ?_, ?_, ?_, rfl, ?_⟩
  · simp [Pump.pumpLog, hDd]
  · simp [Pump.pumpLog, hL]
  · simp [Pump.pumpLog, hR]
  · simp [Pump.pumpLog, hL, hR]
  · intro b
    simp [Pump.pumpLogCalls]

/-- C8 witness: Scenario B — `pump log --left 4 --right 3.5 --duration 20`
at 09:00 (epoch milliseconds within the day) creates a closed record with
start marker 08:40 and total 7.5. -/
theorem claim_C8_pump_log_amended_witness :
    (Pump.pumpLog "b" 32400000 (some 4) (some (7/2)) (some 20) none
        none).startTime = 32400000 - 20 * 60000
    ∧ (Pump.pumpLog "b" 32400000 (some 4) (some (7/2)) (some 20) none
        none).endTime = some 32400000
    ∧ (Pump.pumpLog "b" 32400000 (some 4) (some (7/2)) (some 20) none
        none).totalAmount = some (4 + 7/2) :=
  ⟨(claim_C8_pump_log_amended "b" 32400000 4 (7/2) 20 none none
      (by simp)).1,
   (claim_C8_pump_log_amended "b" 32400000 4 (7/2) 20 none none
      (by simp)).2.1,
   (claim_C8_pump_log_amended "b" 32400000 4 (7/2) 20 none none
      (by simp)).2.2.2.2.1⟩

/-- C10: when pump `update` receives exactly one of the two amounts, the
payload's totalAmount is the supplied amount plus zero — the stored record
is never read (the action issues exactly the one update call), so the
other side does not contribute. -/
theorem claim_C10_update_total_single_side (x : Rat) (id : String)
    (startOpt endOpt unitOpt notesOpt : Option String) :
    (Pump.pumpUpdate (some x) none startOpt endOpt unitOpt
        notesOpt).totalAmount = some (x + 0)
    ∧ (Pump.pumpUpdate none (some x) startOpt endOpt unitOpt
        notesOpt).totalAmount = some (0 + x)
    ∧ (Pump.pumpUpdate (some x) none startOpt endOpt unitOpt
        notesOpt).totalAmount = some x
    ∧ (Pump.pumpUpdate none (some x) startOpt endOpt unitOpt
        notesOpt).totalAmount = some x
    ∧ Pump.pumpUpdateCalls id (some x) none startOpt endOpt unitOpt
        notesOpt =
        [Pump.PumpCall.updateGeneric id
          (Pump.pumpUpdate (some x) none startOpt endOpt unitOpt notesOpt)]
    ∧ Pump.pumpUpdateCalls id none (some x) startOpt endOpt unitOpt
        notesOpt =
        [Pump.PumpCall.updateGeneric id
          (Pump.pumpUpdate none (some x) startOpt endOpt unitOpt notesOpt)] := by
  refine ⟨?_, ?_, ?_, ?_, rfl, rfl⟩ <;> simp [Pump.pumpUpdate]

end SproutTrack
